import Mathlib

/-!
Shallow embedding of `src/BusPyrate.py` (mludvig/BusPyrate).

The serial transport is modelled as a simulated device: a `List String` of
chunks, one chunk consumed per read primitive call (`readall`, `readline`,
`read(1)`); an exhausted list makes every further read return `""`, which is
exactly what the pyserial primitives return on timeout.  Output-side transport
activity (writes, flushes, break signals, timeout changes) is recorded in an
event trace `List Ev`.  Python exceptions are modelled with `Except`;
`BusPyrateError(msg)` is `PyError.busPyrateError msg`.  Machine integers are
Python ints, so plain `Nat`/`Int` with no wrap-around.
-/

namespace BusPyrateModel

/-- Python `str.strip()` whitespace predicate (ASCII whitespace). -/
def pyIsSpace (c : Char) : Bool :=
  c == ' ' || c == '\t' || c == '\n' || c == '\x0d' || c == '\x0b' || c == '\x0c'

/-- Python `str.strip()`: drop leading and trailing whitespace. -/
def strip (s : String) : String :=
  String.mk (((s.toList.dropWhile pyIsSpace).reverse.dropWhile pyIsSpace).reverse)

/-- Python `str.endswith(suffix)`. -/
def endswith (s suffix : String) : Bool :=
  suffix.toList.isSuffixOf s.toList

/-- Scan helper for substring containment. -/
def hasSubstrAux (pat : List Char) : List Char → Bool
  | [] => pat.isPrefixOf []
  | c :: cs => pat.isPrefixOf (c :: cs) || hasSubstrAux pat cs

/-- Python `s.count(pat) > 0`: `pat` occurs somewhere in `s`. -/
def hasSubstr (s pat : String) : Bool :=
  hasSubstrAux pat.toList s.toList

/-- Python `int(...)` on a run of decimal digit characters. -/
def natOfDigits (ds : List Char) : Nat :=
  ds.foldl (fun a c => 10 * a + (c.toNat - 48)) 0

/-- Consume a literal prefix (a regex literal fragment); `none` if absent. -/
def dropLit (lit cs : List Char) : Option (List Char) :=
  if lit.isPrefixOf cs then some (cs.drop lit.length) else none

/-- Consume a maximal nonempty digit run (regex `\d+`, greedy). -/
def takeDigits1 (cs : List Char) : Option (Nat × List Char) :=
  match cs.takeWhile Char.isDigit with
  | [] => none
  | ds => some (natOfDigits ds, cs.dropWhile Char.isDigit)

/-- Python exceptions raised by the code under `src/`. -/
inductive PyError where
  | busPyrateError (msg : String)
  | keyError
  | attributeError (msg : String)
  deriving Repr, DecidableEq

/-- Output-side transport events (`self._ser` calls that emit or configure). -/
inductive Ev where
  | sendBreak
  | write (bs : List Int)
  | flush
  | setTimeout (ms : Nat)
  deriving Repr, DecidableEq

/-- One read primitive call on the simulated device: take the next chunk, or
`""` (timeout with no data) when the stream is exhausted. -/
def readS (stream : List String) : String × List String :=
  match stream with
  | [] => ("", [])
  | s :: rest => (s, rest)

/-- The chunk the k-th read primitive call (0-based) returns on `stream`. -/
def nthRead (stream : List String) (k : Nat) : String :=
  (stream.drop k).headD ""

/-- Events of `n` repetitions of a per-attempt event block. -/
def repEvs (n : Nat) (evs : List Ev) : List Ev :=
  match n with
  | 0 => []
  | k + 1 => evs ++ repEvs k evs

/-- Flatten a list of (break-probe chunk, text-probe chunk) pairs into the
chunk stream the two reads of each detection attempt consume. -/
def pairFlat : List (String × String) → List String
  | [] => []
  | p :: ps => p.1 :: p.2 :: pairFlat ps

namespace BP_Mode

/-- `BP_Mode.text = 0x00` (falsy in Python, "not really a binary mode"). -/
def text : Nat := 0x00
def bbio : Nat := 0x01
def spi : Nat := 0x02
def i2c : Nat := 0x03
def uart : Nat := 0x04
def onewire : Nat := 0x05
def raw : Nat := 0x06

/-- Source constant `CMD_BBIO = 0x00` of class `BP_Mode`. -/
def cmd_bbio : Int := 0x00
def CMD_SPI : Int := 0x01
def CMD_I2C : Int := 0x02
def CMD_UART : Int := 0x03
def CMD_ONEWIRE : Int := 0x04
def CMD_RAW : Int := 0x05

/-- `BP_Mode._mode_str` dictionary / `get_str`; `none` models `KeyError`. -/
def get_str (mode : Nat) : Option String :=
  match mode with
  | 1 => some "BBIO1"
  | 2 => some "SPI1"
  | 3 => some "I2C1"
  | 4 => some "ART1"
  | 5 => some "1W01"
  | 6 => some "RAW1"
  | _ => none

/-- `get_cmd(mode) = mode - 1` (Python int subtraction). -/
def get_cmd (mode : Nat) : Int :=
  (mode : Int) - 1

end BP_Mode

/-- Mutable identity and mode fields of a `BusPyrate` instance, plus the
serial read timeout (`self._ser` state, in milliseconds; `none` is the
pyserial default of no timeout). -/
structure BusPyrate where
  bp_version : Option String
  bp_firmware : Option Nat
  bp_bootloader : Option Nat
  bp_mode : Option Nat
  timeout_ms : Option Nat
  deriving Repr, DecidableEq

namespace BusPyrate

/-- Class constant `CMD_GET_MODE = 0x01`. -/
def CMD_GET_MODE : Int := 0x01

/-- Class constant `CMD_RESET = 0x0F`. -/
def CMD_RESET : Int := 0x0F

/-- Fresh instance state: all identity fields are the class-level `None`s. -/
def initState : BusPyrate :=
  ⟨none, none, none, none, none⟩

/-- Python truthiness test `not self.bp_mode` (`None` and `0` are falsy). -/
def modeFalsy : Option Nat → Bool
  | none => true
  | some v => v == 0

/-- `read_byte`: `int.from_bytes(ret, byteorder="little")` over the bytes the
one-byte `self._ser.read(1)` returned (`[]` models a timed-out read). -/
def int_from_bytes_le : List Nat → Nat
  | [] => 0
  | b :: rest => b + 256 * int_from_bytes_le rest

/-- `BusPyrate.read_byte` on the chunk returned by `self._ser.read(1)`. -/
def read_byte (data : List Nat) : Nat :=
  int_from_bytes_le data

/-- Events of one failed detection attempt in `__init__`: break probe followed
by the `b"\r\n"` text probe. -/
def probeEvs : List Ev :=
  [Ev.sendBreak, Ev.write [0x0D, 0x0A], Ev.flush]

/-- The `tries = 5` probe loop of `BusPyrate.__init__` (lines 78-95): per
attempt, send a break and read; on a chunk containing `"BBIO1"` record binary
mode and stop; otherwise write `b"\r\n"`, flush, read; on a chunk ending in
`">"` record text mode and stop. -/
def detect_loop : Nat → BusPyrate → List String → BusPyrate × List String × List Ev
  | 0, st, stream => (st, stream, [])
  | t + 1, st, stream =>
    let p1 := readS stream
    if hasSubstr p1.1 "BBIO1" then
      ({st with bp_mode := some BP_Mode.bbio}, p1.2, [Ev.sendBreak])
    else
      let p2 := readS p1.2
      if endswith p2.1 ">" then
        ({st with bp_mode := some BP_Mode.text}, p2.2, probeEvs)
      else
        let r := detect_loop t st p2.2
        (r.1, r.2.1, probeEvs ++ r.2.2)

/-- The detection phase of `BusPyrate.__init__` (lines 77-98): set the read
timeout to 0.5 s, run the 5-attempt probe loop on a fresh instance, and raise
`BusPyrateError` if `bp_mode` is still `None` afterwards. -/
def detect (stream : List String) : Except PyError BusPyrate × List String × List Ev :=
  let r := detect_loop 5 {initState with timeout_ms := some 500} stream
  match r.1.bp_mode with
  | none =>
    (.error (.busPyrateError "BusPirate is in unknown state. Reset it and try again."),
     r.2.1, Ev.setTimeout 500 :: r.2.2)
  | some _ => (.ok r.1, r.2.1, Ev.setTimeout 500 :: r.2.2)

/-- Per-line body of `_reset_parse`: offer the stripped line to the two
banner regexes (`"Bus Pirate (v.*)"` and
`"Firmware v(\d+)\.(\d+) Bootloader v(\d+)\.(\d+)"`) and record matches. -/
def parseVersionLine (buf : String) : Option String :=
  if ("Bus Pirate v".toList).isPrefixOf buf.toList then
    some (String.mk (buf.toList.drop 11))
  else none

/-- The firmware banner regex, `re.match` anchored at the start, trailing text
allowed, each `\d+` a maximal digit run; returns the four captured groups. -/
def parseFirmwareLine (buf : String) : Option (Nat × Nat × Nat × Nat) := do
  let cs ← dropLit "Firmware v".toList buf.toList
  let (a, cs) ← takeDigits1 cs
  let cs ← dropLit ['.'] cs
  let (b, cs) ← takeDigits1 cs
  let cs ← dropLit " Bootloader v".toList cs
  let (c, cs) ← takeDigits1 cs
  let cs ← dropLit ['.'] cs
  let (d, _) ← takeDigits1 cs
  pure (a, b, c, d)

/-- Apply the banner regexes of `_reset_parse` to one stripped line,
storing `100*major + minor` for firmware and bootloader (lines 123-132). -/
def applyBanner (st : BusPyrate) (buf : String) : BusPyrate :=
  let st1 :=
    match parseVersionLine buf with
    | some v => {st with bp_version := some v}
    | none => st
  match parseFirmwareLine buf with
  | some (a, b, c, d) =>
    {st1 with bp_firmware := some (100 * a + b), bp_bootloader := some (100 * c + d)}
  | none => st1

/-- The `while True` readline loop of `_reset_parse` (lines 120-135).  The
loop breaks only when a stripped line ends in `"HiZ>"`; an exhausted stream
means every further `readline` returns `""`, which matches nothing, so the
Python loop never exits: that divergence is modelled as `none`. -/
def reset_parse_go (st : BusPyrate) : List String → Option (BusPyrate × List String)
  | [] => none
  | line :: rest =>
    let buf := strip line
    let st1 := applyBanner st buf
    if endswith buf "HiZ>" then some (st1, rest) else reset_parse_go st1 rest

/-- `BusPyrate._reset_parse`: set the read timeout to 0.2 s, then run the
readline loop. -/
def reset_parse (st : BusPyrate) (stream : List String) : Option (BusPyrate × List String) :=
  reset_parse_go {st with timeout_ms := some 200} stream

/-- `BusPyrate.reset` (lines 103-116): in text mode write the literal bytes
`b"#\n"` (no flush), otherwise `write_bytes([CMD_BBIO, CMD_RESET])` (write
then flush); then `_reset_parse`.  The trace records the reset command and
the timeout change; `none` in the first component models the non-terminating
parse loop. -/
def reset (st : BusPyrate) (stream : List String) :
    Option (BusPyrate × List String) × List Ev :=
  if st.bp_mode == some BP_Mode.text then
    (reset_parse st stream, [Ev.write [0x23, 0x0A], Ev.setTimeout 200])
  else
    (reset_parse st stream, [Ev.write [BP_Mode.cmd_bbio, CMD_RESET], Ev.flush, Ev.setTimeout 200])

/-- Events of one binary-mode-entry attempt: `write_bytes([CMD_BBIO, CMD_BBIO])`. -/
def entryEvs : List Ev :=
  [Ev.write [0x00, 0x00], Ev.flush]

/-- The `tries = 20` loop of `BusPyrate.enter_binmode` (lines 137-147): per
attempt write the byte pair `(0x00, 0x00)` and read; on a chunk containing
`"BBIO1"` shrink the timeout to 0.1 s, set `bp_mode = bbio` and return
`True`; after 20 failures raise `BusPyrateError`. -/
def enter_binmode_loop (st : BusPyrate) :
    Nat → List String → Except PyError (Bool × BusPyrate) × List String × List Ev
  | 0, stream => (.error (.busPyrateError "Unable to enter binary mode."), stream, [])
  | t + 1, stream =>
    let p := readS stream
    if hasSubstr p.1 "BBIO1" then
      (.ok (true, {st with bp_mode := some BP_Mode.bbio, timeout_ms := some 100}), p.2,
       entryEvs ++ [Ev.setTimeout 100])
    else
      let r := enter_binmode_loop st t p.2
      (r.1, r.2.1, entryEvs ++ r.2.2)

/-- `BusPyrate.enter_binmode`. -/
def enter_binmode (st : BusPyrate) (stream : List String) :
    Except PyError (Bool × BusPyrate) × List String × List Ev :=
  enter_binmode_loop st 20 stream

/-- `BusPyrate.verify_mode` (lines 169-179): substitute the current mode for
a falsy argument, flush input (`readall`), `write_byte(CMD_GET_MODE)`, read
the echo, and test `buf.endswith(get_str(mode))`.  A mode outside the
`_mode_str` table raises `KeyError` (after the reads, as in the source). -/
def verify_mode (st : BusPyrate) (mode : Option Nat) (stream : List String) :
    Except PyError Bool × List String × List Ev :=
  let eff : Option Nat :=
    match mode with
    | none => st.bp_mode
    | some v => if v == 0 then st.bp_mode else some v
  let p1 := readS stream
  let p2 := readS p1.2
  match eff.bind BP_Mode.get_str with
  | none => (.error .keyError, p2.2, [Ev.write [CMD_GET_MODE], Ev.flush])
  | some wanted => (.ok (endswith p2.1 wanted), p2.2, [Ev.write [CMD_GET_MODE], Ev.flush])

/-- `BusPyrate.set_mode` (lines 181-190): if `bp_mode` is falsy run
`enter_binmode` first (its exception propagates); if the (possibly updated)
mode differs from the target, `write_byte(CMD_BBIO, True)` (flush-read, write
`0x00`, flush, read one byte), `write_byte(get_cmd(mode), True)` likewise,
then `verify_mode(mode)`; commit `bp_mode = mode` only if it returned `True`.
The method itself returns `None` (here `.ok` with the final state). -/
def set_mode (st : BusPyrate) (mode : Nat) (stream : List String) :
    Except PyError BusPyrate × List String × List Ev :=
  let step1 : Except PyError BusPyrate × List String × List Ev :=
    if modeFalsy st.bp_mode then
      let r := enter_binmode st stream
      (match r.1 with
       | .error e => .error e
       | .ok p => .ok p.2, r.2.1, r.2.2)
    else (.ok st, stream, [])
  match step1 with
  | (.error e, s1, tr1) => (.error e, s1, tr1)
  | (.ok st1, s1, tr1) =>
    if st1.bp_mode == some mode then (.ok st1, s1, tr1)
    else
      let p1 := readS s1
      let p2 := readS p1.2
      let p3 := readS p2.2
      let p4 := readS p3.2
      let v := verify_mode st1 (some mode) p4.2
      let tr2 := tr1 ++ [Ev.write [BP_Mode.cmd_bbio], Ev.flush,
                         Ev.write [BP_Mode.get_cmd mode], Ev.flush] ++ v.2.2
      match v.1 with
      | .error e => (.error e, v.2.1, tr2)
      | .ok ok => (.ok (if ok then {st1 with bp_mode := some mode} else st1), v.2.1, tr2)

/-- Events of the mode-switch path of `set_mode`: return-to-BBIO byte,
sub-protocol selector byte, then the `verify_mode` query byte. -/
def switchEvs (mode : Nat) : List Ev :=
  [Ev.write [BP_Mode.cmd_bbio], Ev.flush,
   Ev.write [BP_Mode.get_cmd mode], Ev.flush,
   Ev.write [CMD_GET_MODE], Ev.flush]

end BusPyrate

namespace I2C

def SPEED_5KHZ : Nat := 0b00
def SPEED_50KHZ : Nat := 0b01
def SPEED_100KHZ : Nat := 0b10
def SPEED_400KHZ : Nat := 0b11

/-- Class constant `CMD_SET_SPEED = 0x60`. -/
def CMD_SET_SPEED : Int := 0x60

/-- `I2C.__init__(self, buspirate, speed=SPEED_5KHZ)` (lines 211-213): store
the handle and call `buspirate.set_mode(BP_Mode.i2c)`; the `speed` argument
is accepted but never used by the source, so it is omitted here. -/
def init (buspirate : BusPyrate) (stream : List String) :
    Except PyError BusPyrate × List String × List Ev :=
  BusPyrate.set_mode buspirate BP_Mode.i2c stream

/-- `I2C.set_speed` as written in the source (lines 215-218): the body is
`ret = self.write_byte(CMD_SET_SPEED | (speed & 0x03), True)`.  Python
resolves the callee attribute `self.write_byte` before evaluating the
argument, and class `I2C` defines no `write_byte` (the BusPyrate handle is
held in `self._bp`), so every call raises `AttributeError` before any byte is
written or read; the bare name `CMD_SET_SPEED` would likewise fail to resolve
(it is a class attribute, not a local or global).  The trace is therefore
empty and the stream untouched on every call. -/
def set_speed (speed : Nat) (stream : List String) :
    Except PyError Unit × List String × List Ev :=
  (.error (.attributeError "I2C object has no attribute write_byte"), stream, [])

end I2C

/-! ## Helper lemmas -/

lemma readS_eq (s : List String) : readS s = (s.headD "", s.tail) := by
  cases s <;> rfl

lemma tail_eq_drop (l : List String) : l.tail = l.drop 1 := by
  cases l <;> rfl

lemma reset_parse_go_none_iff (lines : List String) : ∀ st : BusPyrate,
    BusPyrate.reset_parse_go st lines = none ↔
      ∀ l ∈ lines, endswith (strip l) "HiZ>" = false := by
  induction lines with
  | nil => intro st; simp [BusPyrate.reset_parse_go]
  | cons l ls ih =>
    intro st
    simp only [BusPyrate.reset_parse_go]
    cases hE : endswith (strip l) "HiZ>" with
    | true => simp [hE]
    | false => simp [hE, ih]

/-! ## Claim C1 -/

/-- C1 counterexample: with the simulated lines `["", "HiZ>"]`, the readline
loop of `reset()` meets an empty line (a timed-out read) before any line
ending in `"HiZ>"`, yet it does not fail with a `SyncError`: it skips the
empty line and completes successfully once the `"HiZ>"` line arrives. -/
theorem reset_empty_read_completes_cex :
    (BusPyrate.reset ⟨none, none, none, some BP_Mode.bbio, some 100⟩ ["", "HiZ>"]).1 =
      some (⟨none, none, none, some BP_Mode.bbio, some 200⟩, []) := by decide

/-- C1 (amended): the read loop of `reset()` has no empty-read termination
condition and raises no error: an empty line is skipped like any other
non-matching line, the loop returns exactly when some stripped line ends in
`"HiZ>"`, and on a stream that never produces such a line it never
terminates (result `none`, modelling the infinite `while True` loop). -/
theorem reset_loop_termination_iff (st : BusPyrate) (lines : List String) :
    (BusPyrate.reset st lines).1 = none ↔
      ∀ l ∈ lines, endswith (strip l) "HiZ>" = false := by
  have hbranch : (BusPyrate.reset st lines).1 = BusPyrate.reset_parse st lines := by
    cases hb : st.bp_mode == some BP_Mode.text <;> simp [BusPyrate.reset, hb]
  rw [hbranch, BusPyrate.reset_parse]
  exact reset_parse_go_none_iff lines _

/-- C1 witness: the amended termination law applied to a concrete stream
with no `"HiZ>"` line. -/
theorem reset_loop_termination_iff_w :
    (BusPyrate.reset BusPyrate.initState ["a", "b"]).1 = none ↔
      ∀ l ∈ ["a", "b"], endswith (strip l) "HiZ>" = false :=
  reset_loop_termination_iff BusPyrate.initState ["a", "b"]

/-! ## Claim C3 -/

/-- C3: evaluating `I2C.set_speed` as written: for every speed level and
every simulated device response, the call raises `AttributeError` (the `I2C`
class has no `write_byte` attribute and `CMD_SET_SPEED` is an unresolved bare
name), the trace is empty (no command byte `0x60 | (speed & 0x03)` is ever
written) and no response byte is read. -/
theorem i2c_set_speed_attribute_error (speed : Nat) (stream : List String) :
    I2C.set_speed speed stream =
      (.error (.attributeError "I2C object has no attribute write_byte"), stream,
       ([] : List Ev)) := rfl

/-- C3 witness: the evaluation applied at a concrete speed level and a
concrete simulated 0x01-acknowledge response. -/
theorem i2c_set_speed_attribute_error_w :
    I2C.set_speed 2 ["\x01"] =
      (.error (.attributeError "I2C object has no attribute write_byte"), ["\x01"],
       ([] : List Ev)) :=
  i2c_set_speed_attribute_error 2 ["\x01"]

/-! ## Claim C7 -/

/-- C7: on the input lines `"Bus Pirate v3"` and
`"Firmware v4.2 Bootloader v4.1"` (followed by the terminating `"HiZ>"`
prompt), `_reset_parse` records version `"v3"`, firmware `402` and
bootloader `401`; and in general, whenever the firmware banner regex matches
with groups `(a, b, c, d)`, the stored numbers are `100*a + b` and
`100*c + d`. -/
theorem banner_parse_spec :
    (BusPyrate.reset_parse BusPyrate.initState
        ["Bus Pirate v3", "Firmware v4.2 Bootloader v4.1", "HiZ>"] =
      some (⟨some "v3", some 402, some 401, none, some 200⟩, []))
    ∧ (∀ (st : BusPyrate) (buf : String) (a b c d : Nat),
        BusPyrate.parseFirmwareLine buf = some (a, b, c, d) →
        (BusPyrate.applyBanner st buf).bp_firmware = some (100 * a + b) ∧
        (BusPyrate.applyBanner st buf).bp_bootloader = some (100 * c + d)) := by
  refine ⟨by decide, ?_⟩
  intro st buf a b c d h
  unfold BusPyrate.applyBanner
  rw [h]
  cases BusPyrate.parseVersionLine buf <;> simp

/-- C7 witness: the general encoding law applied to the concrete firmware
banner line. -/
theorem banner_parse_spec_w :
    (BusPyrate.applyBanner BusPyrate.initState
        "Firmware v4.2 Bootloader v4.1").bp_firmware = some (100 * 4 + 2) ∧
    (BusPyrate.applyBanner BusPyrate.initState
        "Firmware v4.2 Bootloader v4.1").bp_bootloader = some (100 * 4 + 1) :=
  banner_parse_spec.2 BusPyrate.initState "Firmware v4.2 Bootloader v4.1" 4 2 4 1 (by decide)

/-! ## Claim C5 -/

lemma detect_loop_step_fail (t : Nat) (st : BusPyrate) (s1 s2 : String) (rest : List String)
    (h1 : hasSubstr s1 "BBIO1" = false) (h2 : endswith s2 ">" = false) :
    BusPyrate.detect_loop (t + 1) st (s1 :: s2 :: rest) =
      ((BusPyrate.detect_loop t st rest).1, (BusPyrate.detect_loop t st rest).2.1,
       BusPyrate.probeEvs ++ (BusPyrate.detect_loop t st rest).2.2) := by
  conv_lhs => rw [BusPyrate.detect_loop]
  simp [readS, h1, h2]

lemma detect_loop_step_bbio (t : Nat) (st : BusPyrate) (s : String) (rest : List String)
    (hs : hasSubstr s "BBIO1" = true) :
    BusPyrate.detect_loop (t + 1) st (s :: rest) =
      ({st with bp_mode := some BP_Mode.bbio}, rest, [Ev.sendBreak]) := by
  conv_lhs => rw [BusPyrate.detect_loop]
  simp [readS, hs]

lemma detect_loop_step_text (t : Nat) (st : BusPyrate) (s1 s2 : String) (rest : List String)
    (h1 : hasSubstr s1 "BBIO1" = false) (h2 : endswith s2 ">" = true) :
    BusPyrate.detect_loop (t + 1) st (s1 :: s2 :: rest) =
      ({st with bp_mode := some BP_Mode.text}, rest, BusPyrate.probeEvs) := by
  conv_lhs => rw [BusPyrate.detect_loop]
  simp [readS, h1, h2]

lemma detect_loop_all_fail (ps : List (String × String)) :
    ∀ (st : BusPyrate) (rest : List String),
      (∀ p ∈ ps, hasSubstr p.1 "BBIO1" = false ∧ endswith p.2 ">" = false) →
      BusPyrate.detect_loop ps.length st (pairFlat ps ++ rest) =
        (st, rest, repEvs ps.length BusPyrate.probeEvs) := by
  induction ps with
  | nil => intro st rest _; simp [pairFlat, BusPyrate.detect_loop, repEvs]
  | cons p ps ih =>
    intro st rest h
    have h1 := (h p (by simp)).1
    have h2 := (h p (by simp)).2
    have ih2 := ih st rest (fun q hq => h q (by simp [hq]))
    simp only [pairFlat, List.cons_append, List.length_cons]
    rw [detect_loop_step_fail _ _ _ _ _ h1 h2, ih2]
    simp [repEvs]

lemma detect_loop_bbio (ps : List (String × String)) :
    ∀ (k : Nat) (st : BusPyrate) (s : String) (rest : List String),
      (∀ p ∈ ps, hasSubstr p.1 "BBIO1" = false ∧ endswith p.2 ">" = false) →
      hasSubstr s "BBIO1" = true →
      BusPyrate.detect_loop (ps.length + (k + 1)) st (pairFlat ps ++ s :: rest) =
        ({st with bp_mode := some BP_Mode.bbio}, rest,
         repEvs ps.length BusPyrate.probeEvs ++ [Ev.sendBreak]) := by
  induction ps with
  | nil =>
    intro k st s rest _ hs
    simp only [pairFlat, List.nil_append, List.length_nil, Nat.zero_add]
    rw [detect_loop_step_bbio _ _ _ _ hs]
    simp [repEvs]
  | cons p ps ih =>
    intro k st s rest h hs
    have h1 := (h p (by simp)).1
    have h2 := (h p (by simp)).2
    have ih2 := ih k st s rest (fun q hq => h q (by simp [hq])) hs
    simp only [pairFlat, List.cons_append, List.length_cons]
    rw [Nat.add_right_comm, detect_loop_step_fail _ _ _ _ _ h1 h2, ih2]
    simp [repEvs]

lemma detect_loop_text (ps : List (String × String)) :
    ∀ (k : Nat) (st : BusPyrate) (s1 s2 : String) (rest : List String),
      (∀ p ∈ ps, hasSubstr p.1 "BBIO1" = false ∧ endswith p.2 ">" = false) →
      hasSubstr s1 "BBIO1" = false → endswith s2 ">" = true →
      BusPyrate.detect_loop (ps.length + (k + 1)) st (pairFlat ps ++ s1 :: s2 :: rest) =
        ({st with bp_mode := some BP_Mode.text}, rest,
         repEvs ps.length BusPyrate.probeEvs ++ BusPyrate.probeEvs) := by
  induction ps with
  | nil =>
    intro k st s1 s2 rest _ h1 h2
    simp only [pairFlat, List.nil_append, List.length_nil, Nat.zero_add]
    rw [detect_loop_step_text _ _ _ _ _ h1 h2]
    simp [repEvs]
  | cons p ps ih =>
    intro k st s1 s2 rest h h1 h2
    have hp1 := (h p (by simp)).1
    have hp2 := (h p (by simp)).2
    have ih2 := ih k st s1 s2 rest (fun q hq => h q (by simp [hq])) h1 h2
    simp only [pairFlat, List.cons_append, List.length_cons]
    rw [Nat.add_right_comm, detect_loop_step_fail _ _ _ _ _ hp1 hp2, ih2]
    simp [repEvs]

/-- C5: the detection phase of `__init__` makes at most 5 attempts.  If every
one of 5 attempts fails (the break-probe chunk lacks `"BBIO1"` and the
text-probe chunk does not end in `">"`), it fails with the `SyncError`-class
`BusPyrateError` for an unknown device state, consuming exactly the 5
attempts' reads (the rest of the stream is returned untouched) and emitting
exactly the 5 attempts' transport events.  If some earlier attempt's
break-probe chunk contains `"BBIO1"`, it records `bp_mode = bbio` and stops;
if instead its text-probe chunk ends in `">"`, it records `bp_mode = text`
and stops. -/
theorem detect_budget_spec :
    (∀ (ps : List (String × String)) (rest : List String),
        ps.length = 5 →
        (∀ p ∈ ps, hasSubstr p.1 "BBIO1" = false ∧ endswith p.2 ">" = false) →
        BusPyrate.detect (pairFlat ps ++ rest) =
          (.error (.busPyrateError "BusPirate is in unknown state. Reset it and try again."),
           rest, Ev.setTimeout 500 :: repEvs 5 BusPyrate.probeEvs))
    ∧ (∀ (ps : List (String × String)) (s : String) (rest : List String),
        ps.length < 5 →
        (∀ p ∈ ps, hasSubstr p.1 "BBIO1" = false ∧ endswith p.2 ">" = false) →
        hasSubstr s "BBIO1" = true →
        BusPyrate.detect (pairFlat ps ++ s :: rest) =
          (.ok ⟨none, none, none, some BP_Mode.bbio, some 500⟩, rest,
           Ev.setTimeout 500 :: (repEvs ps.length BusPyrate.probeEvs ++ [Ev.sendBreak])))
    ∧ (∀ (ps : List (String × String)) (s1 s2 : String) (rest : List String),
        ps.length < 5 →
        (∀ p ∈ ps, hasSubstr p.1 "BBIO1" = false ∧ endswith p.2 ">" = false) →
        hasSubstr s1 "BBIO1" = false → endswith s2 ">" = true →
        BusPyrate.detect (pairFlat ps ++ s1 :: s2 :: rest) =
          (.ok ⟨none, none, none, some BP_Mode.text, some 500⟩, rest,
           Ev.setTimeout 500 :: (repEvs ps.length BusPyrate.probeEvs ++ BusPyrate.probeEvs))) := by
  refine ⟨?_, ?_, ?_⟩
  · intro ps rest h5 hf
    have hl := detect_loop_all_fail ps {BusPyrate.initState with timeout_ms := some 500} rest hf
    rw [h5] at hl
    simp only [BusPyrate.detect]
    rw [hl]
    simp [BusPyrate.initState]
  · intro ps s rest hlt hf hs
    obtain ⟨k, hk⟩ := Nat.exists_eq_add_of_lt hlt
    rw [Nat.add_assoc] at hk
    have hl := detect_loop_bbio ps k {BusPyrate.initState with timeout_ms := some 500} s rest hf hs
    rw [← hk] at hl
    simp only [BusPyrate.detect]
    rw [hl]
    simp [BusPyrate.initState]
  · intro ps s1 s2 rest hlt hf h1 h2
    obtain ⟨k, hk⟩ := Nat.exists_eq_add_of_lt hlt
    rw [Nat.add_assoc] at hk
    have hl := detect_loop_text ps k {BusPyrate.initState with timeout_ms := some 500} s1 s2 rest hf h1 h2
    rw [← hk] at hl
    simp only [BusPyrate.detect]
    rw [hl]
    simp [BusPyrate.initState]

/-- C5 witness: the three parts of `detect_budget_spec` applied to concrete
streams (5 failing attempts; first-attempt binary detection; first-attempt
text detection). -/
theorem detect_budget_spec_w :
    BusPyrate.detect ["a", "b", "a", "b", "a", "b", "a", "b", "a", "b", "z"] =
      (.error (.busPyrateError "BusPirate is in unknown state. Reset it and try again."),
       ["z"], Ev.setTimeout 500 :: repEvs 5 BusPyrate.probeEvs) ∧
    BusPyrate.detect ["xBBIO1", "z"] =
      (.ok ⟨none, none, none, some BP_Mode.bbio, some 500⟩, ["z"],
       Ev.setTimeout 500 :: (repEvs 0 BusPyrate.probeEvs ++ [Ev.sendBreak])) ∧
    BusPyrate.detect ["a", "cc>", "z"] =
      (.ok ⟨none, none, none, some BP_Mode.text, some 500⟩, ["z"],
       Ev.setTimeout 500 :: (repEvs 0 BusPyrate.probeEvs ++ BusPyrate.probeEvs)) :=
  ⟨detect_budget_spec.1 [("a", "b"), ("a", "b"), ("a", "b"), ("a", "b"), ("a", "b")] ["z"]
      rfl (by decide),
   detect_budget_spec.2.1 [] "xBBIO1" ["z"] (by decide) (by decide) (by decide),
   detect_budget_spec.2.2 [] "a" "cc>" ["z"] (by decide) (by decide) (by decide) (by decide)⟩

/-! ## Claim C6 -/

lemma enter_loop_step_fail (t : Nat) (st : BusPyrate) (s : String) (rest : List String)
    (h : hasSubstr s "BBIO1" = false) :
    BusPyrate.enter_binmode_loop st (t + 1) (s :: rest) =
      ((BusPyrate.enter_binmode_loop st t rest).1,
       (BusPyrate.enter_binmode_loop st t rest).2.1,
       BusPyrate.entryEvs ++ (BusPyrate.enter_binmode_loop st t rest).2.2) := by
  conv_lhs => rw [BusPyrate.enter_binmode_loop]
  simp [readS, h]

lemma enter_loop_step_succ (t : Nat) (st : BusPyrate) (s : String) (rest : List String)
    (h : hasSubstr s "BBIO1" = true) :
    BusPyrate.enter_binmode_loop st (t + 1) (s :: rest) =
      (.ok (true, {st with bp_mode := some BP_Mode.bbio, timeout_ms := some 100}), rest,
       BusPyrate.entryEvs ++ [Ev.setTimeout 100]) := by
  conv_lhs => rw [BusPyrate.enter_binmode_loop]
  simp [readS, h]

lemma enter_loop_all_fail (ss : List String) :
    ∀ (st : BusPyrate) (rest : List String),
      (∀ s ∈ ss, hasSubstr s "BBIO1" = false) →
      BusPyrate.enter_binmode_loop st ss.length (ss ++ rest) =
        (.error (.busPyrateError "Unable to enter binary mode."), rest,
         repEvs ss.length BusPyrate.entryEvs) := by
  induction ss with
  | nil => intro st rest _; simp [BusPyrate.enter_binmode_loop, repEvs]
  | cons s ss ih =>
    intro st rest h
    have h1 := h s (by simp)
    have ih2 := ih st rest (fun q hq => h q (by simp [hq]))
    simp only [List.cons_append, List.length_cons]
    rw [enter_loop_step_fail _ _ _ _ h1, ih2]
    simp [repEvs]

lemma enter_loop_succ (ss : List String) :
    ∀ (k : Nat) (st : BusPyrate) (s : String) (rest : List String),
      (∀ x ∈ ss, hasSubstr x "BBIO1" = false) →
      hasSubstr s "BBIO1" = true →
      BusPyrate.enter_binmode_loop st (ss.length + (k + 1)) (ss ++ s :: rest) =
        (.ok (true, {st with bp_mode := some BP_Mode.bbio, timeout_ms := some 100}), rest,
         repEvs ss.length BusPyrate.entryEvs ++ BusPyrate.entryEvs ++ [Ev.setTimeout 100]) := by
  induction ss with
  | nil =>
    intro k st s rest _ hs
    simp only [List.nil_append, List.length_nil, Nat.zero_add]
    rw [enter_loop_step_succ _ _ _ _ hs]
    simp [repEvs]
  | cons x ss ih =>
    intro k st s rest h hs
    have h1 := h x (by simp)
    have ih2 := ih k st s rest (fun q hq => h q (by simp [hq])) hs
    simp only [List.cons_append, List.length_cons]
    rw [Nat.add_right_comm, enter_loop_step_fail _ _ _ _ h1, ih2]
    simp [repEvs]

/-- C6: `enter_binmode` makes at most 20 attempts, each writing the byte pair
`(0x00, 0x00)` and reading the available bytes.  When every one of 20
attempts' chunks lacks the `"BBIO1"` sentinel it raises the
`SyncError`-class `BusPyrateError` for binary-mode entry, consuming exactly
the 20 attempts' reads (the rest of the stream is untouched) and emitting
exactly the 20 attempts' writes; when an earlier attempt's chunk contains
the sentinel it returns `True`, sets `bp_mode = bbio` and shrinks the read
timeout to 0.1 s. -/
theorem enter_binmode_budget_spec :
    (∀ (ss rest : List String) (st : BusPyrate),
        ss.length = 20 →
        (∀ s ∈ ss, hasSubstr s "BBIO1" = false) →
        BusPyrate.enter_binmode st (ss ++ rest) =
          (.error (.busPyrateError "Unable to enter binary mode."), rest,
           repEvs 20 BusPyrate.entryEvs))
    ∧ (∀ (ss : List String) (s : String) (rest : List String) (st : BusPyrate),
        ss.length < 20 →
        (∀ x ∈ ss, hasSubstr x "BBIO1" = false) →
        hasSubstr s "BBIO1" = true →
        BusPyrate.enter_binmode st (ss ++ s :: rest) =
          (.ok (true, {st with bp_mode := some BP_Mode.bbio, timeout_ms := some 100}), rest,
           repEvs ss.length BusPyrate.entryEvs ++ BusPyrate.entryEvs ++ [Ev.setTimeout 100])) := by
  constructor
  · intro ss rest st h20 hf
    have hl := enter_loop_all_fail ss st rest hf
    rw [h20] at hl
    simpa [BusPyrate.enter_binmode] using hl
  · intro ss s rest st hlt hf hs
    obtain ⟨k, hk⟩ := Nat.exists_eq_add_of_lt hlt
    rw [Nat.add_assoc] at hk
    have hl := enter_loop_succ ss k st s rest hf hs
    rw [← hk] at hl
    simpa [BusPyrate.enter_binmode] using hl

/-- C6 witness: both parts of `enter_binmode_budget_spec` applied to concrete
streams (20 failing attempts; first-attempt success). -/
theorem enter_binmode_budget_spec_w :
    BusPyrate.enter_binmode BusPyrate.initState (List.replicate 20 "x" ++ ["r"]) =
      (.error (.busPyrateError "Unable to enter binary mode."), ["r"],
       repEvs 20 BusPyrate.entryEvs) ∧
    BusPyrate.enter_binmode BusPyrate.initState ["yBBIO1y", "r"] =
      (.ok (true, ⟨none, none, none, some BP_Mode.bbio, some 100⟩), ["r"],
       repEvs 0 BusPyrate.entryEvs ++ BusPyrate.entryEvs ++ [Ev.setTimeout 100]) :=
  ⟨enter_binmode_budget_spec.1 (List.replicate 20 "x") ["r"] BusPyrate.initState
      (by decide) (by decide),
   enter_binmode_budget_spec.2 [] "yBBIO1y" ["r"] BusPyrate.initState
      (by decide) (by decide) (by decide)⟩

/-! ## set_mode machinery (claims C2, C4, C9) -/

lemma get_str_ne_zero {m : Nat} {w : String} (hw : BP_Mode.get_str m = some w) : m ≠ 0 := by
  intro h
  rw [h] at hw
  exact Option.noConfusion hw

lemma set_mode_noop (st : BusPyrate) (m : Nat) (stream : List String)
    (hb : st.bp_mode = some m) (h0 : m ≠ 0) :
    BusPyrate.set_mode st m stream = (.ok st, stream, []) := by
  have hf : BusPyrate.modeFalsy st.bp_mode = false := by
    rw [hb]; simp [BusPyrate.modeFalsy, h0]
  have he : (st.bp_mode == some m) = true := by rw [hb]; simp
  simp [BusPyrate.set_mode, hf, he]

/-- On the switch path (current mode truthy and different from the target,
target in the mode table), `set_mode` always returns `.ok`: it consumes the
six reads of the two `write_byte(_, True)` calls and `verify_mode`, writes
the return-to-BBIO byte, the selector byte and the get-mode byte, and the
final state has `bp_mode = mode` exactly when the sixth chunk read (the
`verify_mode` echo) ends with the target's sentinel. -/
lemma set_mode_switch (st : BusPyrate) (b m : Nat) (w : String) (stream : List String)
    (hb : st.bp_mode = some b) (hb0 : b ≠ 0) (hm : m ≠ b)
    (hw : BP_Mode.get_str m = some w) :
    BusPyrate.set_mode st m stream =
      (.ok (if endswith (nthRead stream 5) w then {st with bp_mode := some m} else st),
       stream.drop 6, BusPyrate.switchEvs m) := by
  have hm0 : m ≠ 0 := get_str_ne_zero hw
  have hf : BusPyrate.modeFalsy st.bp_mode = false := by
    rw [hb]; simp [BusPyrate.modeFalsy, hb0]
  have he : (st.bp_mode == some m) = false := by
    rw [hb]
    simp only [beq_eq_false_iff_ne, ne_eq, Option.some.injEq]
    exact fun hc => hm hc.symm
  have hq : (m == 0) = false := by simp [hm0]
  simp only [BusPyrate.set_mode, hf, Bool.false_eq_true, if_false, he,
    BusPyrate.verify_mode, hq, hw, Option.some_bind, readS_eq, tail_eq_drop,
    List.drop_drop, nthRead, BusPyrate.switchEvs]
  simp [readS_eq, tail_eq_drop, List.drop_drop, nthRead]

/-! ## Claim C4 -/

/-- C4: under the documented precondition that the current personality is a
truthy mode `b` (the spec requires BinaryBase), for every target `m` in the
mode table and every simulated response stream, `set_mode` returns without
error, the final `bp_mode` equals the target exactly when the target was
already current or the verification read ends with the target's sentinel,
and on a sentinel mismatch the entire state is unchanged (no partial
commit). -/
theorem set_mode_commit_iff_sentinel (st : BusPyrate) (b m : Nat) (w : String)
    (stream : List String) (hb : st.bp_mode = some b) (hb0 : b ≠ 0)
    (hw : BP_Mode.get_str m = some w) :
    ∃ st' rest tr, BusPyrate.set_mode st m stream = (.ok st', rest, tr) ∧
      (st'.bp_mode = some m ↔ (m = b ∨ endswith (nthRead stream 5) w = true)) ∧
      (endswith (nthRead stream 5) w = false → st' = st) := by
  by_cases hmb : m = b
  · subst hmb
    exact ⟨st, stream, [], set_mode_noop st m stream hb (get_str_ne_zero hw),
      by simp [hb], fun _ => rfl⟩
  · have hsw := set_mode_switch st b m w stream hb hb0 hmb hw
    cases hE : endswith (nthRead stream 5) w
    · rw [hE] at hsw
      simp only [Bool.false_eq_true, if_false] at hsw
      refine ⟨st, stream.drop 6, BusPyrate.switchEvs m, hsw, ?_, fun _ => rfl⟩
      refine iff_of_false ?_ ?_
      · rw [hb]
        intro hc
        exact hmb (Option.some.inj hc).symm
      · rintro (hc | hc)
        · exact hmb hc
        · exact Bool.noConfusion hc
    · rw [hE] at hsw
      simp only [if_true] at hsw
      refine ⟨{st with bp_mode := some m}, stream.drop 6, BusPyrate.switchEvs m, hsw,
        by simp [hE], ?_⟩
      intro hc
      exact Bool.noConfusion hc

/-- C4 witness: applied with current mode `bbio`, target `i2c` and a stream
whose verification echo ends in `"I2C1"`. -/
theorem set_mode_commit_iff_sentinel_w :
    ∃ st' rest tr,
      BusPyrate.set_mode ⟨none, none, none, some 1, some 100⟩ 3
          ["", "", "", "", "", "xI2C1"] = (.ok st', rest, tr) ∧
      (st'.bp_mode = some 3 ↔
        (3 = 1 ∨ endswith (nthRead ["", "", "", "", "", "xI2C1"] 5) "I2C1" = true)) ∧
      (endswith (nthRead ["", "", "", "", "", "xI2C1"] 5) "I2C1" = false →
        st' = ⟨none, none, none, some 1, some 100⟩) :=
  set_mode_commit_iff_sentinel ⟨none, none, none, some 1, some 100⟩ 1 3 "I2C1"
    ["", "", "", "", "", "xI2C1"] rfl (by decide) rfl

/-! ## Claim C2 -/

/-- C2 counterexample: an already-synchronized connection (`bp_mode = bbio`)
whose device echoes the wrong sentinel (`"SPI1"` instead of `"I2C1"`) on the
verification read: `I2C.__init__`'s `set_mode(BP_Mode.i2c)` call returns
`.ok` — construction succeeds, no `SyncError` is raised or propagated, and
`set_mode` surfaces no failure value of any kind (the Python method returns
`None`). -/
theorem i2c_init_unverified_switch_cex :
    I2C.init ⟨none, none, none, some BP_Mode.bbio, some 100⟩
        ["", "", "", "", "", "SPI1"] =
      (.ok ⟨none, none, none, some BP_Mode.bbio, some 100⟩, [],
       [Ev.write [0x00], Ev.flush, Ev.write [0x02], Ev.flush, Ev.write [0x01], Ev.flush]) := by
  rfl

/-- C2 (amended): when the personality switch cannot be verified,
`set_mode` neither raises nor returns a failure indication — it leaves
`bp_mode` unchanged and returns normally (Python `None`; the boolean from
`verify_mode` is consumed inside `set_mode`) — so constructing the I2C
session succeeds anyway. -/
theorem i2c_init_soft_failure_invisible (st : BusPyrate) (stream : List String)
    (hb : st.bp_mode = some BP_Mode.bbio)
    (hv : endswith (nthRead stream 5) "I2C1" = false) :
    I2C.init st stream = (.ok st, stream.drop 6, BusPyrate.switchEvs BP_Mode.i2c) := by
  have hsw := set_mode_switch st BP_Mode.bbio BP_Mode.i2c "I2C1" stream hb
    (by decide) (by decide) rfl
  rw [hv] at hsw
  simpa [I2C.init] using hsw

/-- C2 witness: the amended statement applied to a concrete synchronized
state and a concrete wrong-sentinel stream. -/
theorem i2c_init_soft_failure_invisible_w :
    I2C.init ⟨none, none, none, some BP_Mode.bbio, some 100⟩
        ["", "", "", "", "", "SPI1x"] =
      (.ok ⟨none, none, none, some BP_Mode.bbio, some 100⟩,
       List.drop 6 ["", "", "", "", "", "SPI1x"], BusPyrate.switchEvs BP_Mode.i2c) :=
  i2c_init_soft_failure_invisible ⟨none, none, none, some BP_Mode.bbio, some 100⟩
    ["", "", "", "", "", "SPI1x"] rfl (by decide)

/-! ## Claim C9 -/

/-- C9 counterexample: current personality SPI (non-baseline), target I2C (a
different non-baseline sub-protocol): `set_mode` is not rejected as a
precondition violation — it silently performs the switch (writes the
return-to-BBIO byte `0x00`, the selector byte `0x02` and the get-mode query
`0x01`) and, the device echoing `"I2C1"`, commits `bp_mode = i2c`. -/
theorem set_mode_cross_subproto_cex :
    BusPyrate.set_mode ⟨none, none, none, some BP_Mode.spi, some 100⟩ BP_Mode.i2c
        ["", "", "", "", "", "xI2C1"] =
      (.ok ⟨none, none, none, some BP_Mode.i2c, some 100⟩, [],
       [Ev.write [0x00], Ev.flush, Ev.write [0x02], Ev.flush, Ev.write [0x01], Ev.flush]) := by
  rfl

/-- C9 (amended): a call to `set_mode` whose current personality is a
non-baseline sub-protocol and whose target is a different non-baseline
sub-protocol is not rejected: `set_mode` has no such precondition check and
performs the ordinary switch sequence (return-to-BBIO byte, selector byte,
verification query), committing the target exactly when the verification
echo ends with the target's sentinel. -/
theorem set_mode_cross_subproto_performed (st : BusPyrate) (m₀ m : Nat) (w : String)
    (stream : List String) (h1 : st.bp_mode = some m₀) (h2 : 2 ≤ m₀) (h3 : m₀ ≤ 6)
    (h4 : 2 ≤ m) (h5 : m ≤ 6) (h6 : m ≠ m₀) (hw : BP_Mode.get_str m = some w) :
    BusPyrate.set_mode st m stream =
      (.ok (if endswith (nthRead stream 5) w then {st with bp_mode := some m} else st),
       stream.drop 6, BusPyrate.switchEvs m) :=
  set_mode_switch st m₀ m w stream h1 (by omega) h6 hw

/-- C9 witness: the amended statement applied with current mode SPI and
target UART on a concrete stream. -/
theorem set_mode_cross_subproto_performed_w :
    BusPyrate.set_mode ⟨none, none, none, some BP_Mode.spi, some 100⟩ BP_Mode.uart
        ["", "", "", "", "", "nope"] =
      (.ok (if endswith (nthRead ["", "", "", "", "", "nope"] 5) "ART1" then
              {(⟨none, none, none, some BP_Mode.spi, some 100⟩ : BusPyrate) with
                bp_mode := some BP_Mode.uart}
            else ⟨none, none, none, some BP_Mode.spi, some 100⟩),
       List.drop 6 ["", "", "", "", "", "nope"], BusPyrate.switchEvs BP_Mode.uart) :=
  set_mode_cross_subproto_performed ⟨none, none, none, some BP_Mode.spi, some 100⟩
    BP_Mode.spi BP_Mode.uart "ART1" ["", "", "", "", "", "nope"] rfl (by decide)
    (by decide) (by decide) (by decide) (by decide) rfl

/-! ## Claim C8 -/

lemma enter_loop_unfold (t : Nat) (st : BusPyrate) (stream : List String) :
    BusPyrate.enter_binmode_loop st (t + 1) stream =
      (if hasSubstr (readS stream).1 "BBIO1" then
        (.ok (true, {st with bp_mode := some BP_Mode.bbio, timeout_ms := some 100}),
         (readS stream).2, BusPyrate.entryEvs ++ [Ev.setTimeout 100])
      else
        ((BusPyrate.enter_binmode_loop st t (readS stream).2).1,
         (BusPyrate.enter_binmode_loop st t (readS stream).2).2.1,
         BusPyrate.entryEvs ++ (BusPyrate.enter_binmode_loop st t (readS stream).2).2.2)) := by
  conv_lhs => rw [BusPyrate.enter_binmode_loop]

/-- C8: the wire encodings.  Every binary-mode-entry attempt starts by
writing the byte pair `(0x00, 0x00)`; `reset` in binary mode writes exactly
the byte pair `(0x00, 0x0F)` (then flushes and shortens the timeout);
`reset` in text mode writes exactly the bytes `"#\n"` (`0x23 0x0A`); and the
sub-protocol selector `get_cmd` agrees with the device's `CMD_*` selector
table and equals the personality's ordinal value minus 1. -/
theorem wire_encoding_spec :
    (∀ (st : BusPyrate) (stream : List String),
        ∃ t, (BusPyrate.enter_binmode st stream).2.2 =
          Ev.write [0x00, 0x00] :: Ev.flush :: t)
    ∧ (∀ (st : BusPyrate) (stream : List String), st.bp_mode ≠ some BP_Mode.text →
        (BusPyrate.reset st stream).2 =
          [Ev.write [0x00, 0x0F], Ev.flush, Ev.setTimeout 200])
    ∧ (∀ (st : BusPyrate) (stream : List String), st.bp_mode = some BP_Mode.text →
        (BusPyrate.reset st stream).2 = [Ev.write [0x23, 0x0A], Ev.setTimeout 200])
    ∧ (BP_Mode.get_cmd BP_Mode.spi = BP_Mode.CMD_SPI ∧
       BP_Mode.get_cmd BP_Mode.i2c = BP_Mode.CMD_I2C ∧
       BP_Mode.get_cmd BP_Mode.uart = BP_Mode.CMD_UART ∧
       BP_Mode.get_cmd BP_Mode.onewire = BP_Mode.CMD_ONEWIRE ∧
       BP_Mode.get_cmd BP_Mode.raw = BP_Mode.CMD_RAW)
    ∧ (∀ m : Nat, BP_Mode.get_cmd m = (m : Int) - 1) := by
  refine ⟨?_, ?_, ?_, by decide, fun m => rfl⟩
  · intro st stream
    rw [show BusPyrate.enter_binmode st stream =
          BusPyrate.enter_binmode_loop st (19 + 1) stream from rfl,
        enter_loop_unfold]
    cases hE : hasSubstr (readS stream).1 "BBIO1"
    · refine ⟨(BusPyrate.enter_binmode_loop st 19 (readS stream).2).2.2, ?_⟩
      simp [hE, BusPyrate.entryEvs]
    · refine ⟨[Ev.setTimeout 100], ?_⟩
      simp [hE, BusPyrate.entryEvs]
  · intro st stream h
    have hne : (st.bp_mode == some BP_Mode.text) = false := beq_eq_false_iff_ne.mpr h
    simp [BusPyrate.reset, hne, BP_Mode.cmd_bbio, BusPyrate.CMD_RESET]
  · intro st stream h
    simp [BusPyrate.reset, h]

/-- C8 witness: the three hypothesis-bearing parts of `wire_encoding_spec`
applied to concrete states and streams. -/
theorem wire_encoding_spec_w :
    (∃ t, (BusPyrate.enter_binmode BusPyrate.initState ["BBIO1"]).2.2 =
       Ev.write [0x00, 0x00] :: Ev.flush :: t) ∧
    (BusPyrate.reset BusPyrate.initState []).2 =
      [Ev.write [0x00, 0x0F], Ev.flush, Ev.setTimeout 200] ∧
    (BusPyrate.reset ⟨none, none, none, some BP_Mode.text, none⟩ []).2 =
      [Ev.write [0x23, 0x0A], Ev.setTimeout 200] :=
  ⟨wire_encoding_spec.1 BusPyrate.initState ["BBIO1"],
   wire_encoding_spec.2.1 BusPyrate.initState [] (by decide),
   wire_encoding_spec.2.2.1 ⟨none, none, none, some BP_Mode.text, none⟩ [] rfl⟩

/-! ## Claim C10 -/

/-- C10: when the underlying one-byte read returns no bytes (timeout),
`read_byte` returns `0`, which is exactly its value on an actual `0x00`
response byte — the two cases are indistinguishable to the caller — while a
present byte `b` is returned as `b`. -/
theorem read_byte_timeout_indistinguishable :
    BusPyrate.read_byte [] = 0 ∧ BusPyrate.read_byte [0x00] = 0 ∧
    BusPyrate.read_byte [] = BusPyrate.read_byte [0x00] ∧
    ∀ b : Nat, BusPyrate.read_byte [b] = b := by
  refine ⟨rfl, rfl, rfl, ?_⟩
  intro b
  simp [BusPyrate.read_byte, BusPyrate.int_from_bytes_le]

/-- C10 witness: the general single-byte law applied at a concrete byte. -/
theorem read_byte_timeout_indistinguishable_w :
    BusPyrate.read_byte [0x37] = 0x37 :=
  read_byte_timeout_indistinguishable.2.2.2 0x37

end BusPyrateModel
